import Mathlib

/-!
# Verification of the cadastral/land-registry core against its specification

Shallow embedding of the core of the `boljeuredjenazemlja` repository:

* the land-registry data model of `api/src/cadastral_api/models/entities.py`
  (possessors, possession sheets, ownership shares, sheet B, the detailed
  land-registry unit),
* the GML geometry parser of `src/cadastral_api/gis/parser.py`,
* the GIS cache manager of `api/src/cadastral_api/gis/cache.py`,
* the municipality resolution and batch processing of
  `cli/src/cadastral_cli/commands/search.py` and
  `cli/src/cadastral_cli/batch_processor.py`.

Python machine floats are modelled as exact rationals (`ℚ`): every float the
code produces arises from parsing a decimal or fractional string, and the
properties proved here are stated "exactly within floating tolerance", so the
rational value is the faithful object of study.  Python exceptions are
modelled with `Option`/`Except`: a total Lean function *is* the "never
raises" guarantee.  Python `None` is `Option.none`.
-/

namespace Cadastral

/-! ## String-parsing utilities shared by the embedded code

Python's `str.split`, `Fraction(str)` and `float(str)` are modelled below,
restricted to the lexical forms the repository actually feeds them
(optional sign, digit runs, one decimal point, one slash).  Exponents,
underscores, `inf`/`nan` and non-ASCII digits never occur in the claims or
in the repository's data and are parsed as failures here. -/

/-- Numeric value of a decimal digit character (junk for non-digits). -/
def digitValue (c : Char) : Nat := c.toNat - 48

/-- Value of a digit string, most significant digit first
(`digitsVal ['4','0','9'] = 409`). -/
def digitsVal (cs : List Char) : Nat :=
  cs.foldl (fun a c => a * 10 + digitValue c) 0

/-- Parse a non-empty, all-digit character list to its numeric value;
`none` on the empty list or any non-digit character.  Models the digit-run
groups of Python's `Fraction`/`float` string grammars. -/
def parseDigits : List Char → Option Nat
  | [] => none
  | c :: cs =>
    if c.isDigit then
      cs.foldl (fun a d => a.bind fun n => if d.isDigit then some (n * 10 + digitValue d) else none)
        (some (digitValue c))
    else none

/-- Split a character list at the first occurrence of `sep`:
returns the prefix before it and, when `sep` occurs, the remainder after it.
Models Python's `str.split(sep, 1)`. -/
def splitAtFirst (sep : Char) : List Char → List Char × Option (List Char)
  | [] => ([], none)
  | c :: cs =>
    if c = sep then ([], some cs)
    else
      let r := splitAtFirst sep cs
      (c :: r.1, r.2)

/-- Unsigned part of Python's `float(str)` grammar restricted to
`digits`, `digits.digits`, `digits.` and `.digits`: the rational value,
or `none` when the form is not numeric. -/
def parseUnsignedFloat (cs : List Char) : Option ℚ :=
  let s := splitAtFirst '.' cs
  match s.2 with
  | none => (parseDigits s.1).map (fun n => (n : ℚ))
  | some fp =>
    if fp.contains '.' then none
    else if s.1 = [] then
      (parseDigits fp).map (fun f => (f : ℚ) / (10 : ℚ) ^ fp.length)
    else if fp = [] then
      (parseDigits s.1).map (fun n => (n : ℚ))
    else
      (parseDigits s.1).bind fun n =>
        (parseDigits fp).map fun f => (n : ℚ) + (f : ℚ) / (10 : ℚ) ^ fp.length

/-- Optional-sign wrapper shared by the numeric-string models: apply the
unsigned parser after a leading `-` (negating) or `+`, or to the whole
list. -/
def parseSigned (unsigned : List Char → Option ℚ) (cs : List Char) : Option ℚ :=
  match cs with
  | [] => unsigned []
  | c :: rest =>
    if c = '-' then (unsigned rest).map Neg.neg
    else if c = '+' then unsigned rest
    else unsigned (c :: rest)

/-- Python's `float(str)` on the decimal forms used by the repository:
optional sign, then `parseUnsignedFloat`.  Total; `none` models
`ValueError`. -/
def parseFloat (s : String) : Option ℚ :=
  parseSigned parseUnsignedFloat s.toList

/-- Unsigned part of Python's `fractions.Fraction(str)` grammar:
an integer digit run, or `digits/digits` where a zero denominator is
`none` (the `ZeroDivisionError` branch). -/
def fracUnsigned (cs : List Char) : Option ℚ :=
  let sp := splitAtFirst '/' cs
  match sp.2 with
  | none => (parseDigits sp.1).map (fun n => (n : ℚ))
  | some den =>
    (parseDigits sp.1).bind fun n =>
      (parseDigits den).bind fun d =>
        if d = 0 then none else some ((n : ℚ) / (d : ℚ))

/-- Python's `fractions.Fraction(str)` on the forms used by the repository:
optional sign, then `fracUnsigned`; any non-digit character is `none`
(the `ValueError` branch).  Total. -/
def pythonFraction (s : String) : Option ℚ :=
  parseSigned fracUnsigned s.toList

end Cadastral

namespace Cadastral

/-- Python's `int(str)` on the forms used by the repository:
optional sign followed by a digit run; `none` models `ValueError`. -/
def pythonInt (s : String) : Option Int :=
  match s.toList with
  | [] => none
  | c :: rest =>
    if c = '-' then (parseDigits rest).map (fun n => -(n : Int))
    else if c = '+' then (parseDigits rest).map (fun n => (n : Int))
    else (parseDigits (c :: rest)).map (fun n => (n : Int))

/-- Does `hay` start with `needle`? (helper for substring containment). -/
def startsWithChars : List Char → List Char → Bool
  | _, [] => true
  | [], _ :: _ => false
  | a :: as, b :: bs => a == b && startsWithChars as bs

/-- Substring containment on character lists: does `needle` occur
contiguously inside `hay`?  Models Python's `needle in hay` for strings
(case-sensitive, exact). -/
def containsChars : List Char → List Char → Bool
  | [], needle => needle.isEmpty
  | c :: cs, needle => startsWithChars (c :: cs) needle || containsChars cs needle

/-- Predicate `strContainsSub hay needle` models Python's `needle in hay`. -/
def strContainsSub (hay needle : String) : Bool :=
  containsChars hay.toList needle.toList

/-- Strip leading and trailing whitespace from a character list
(Python's `str.strip()`). -/
def trimChars (cs : List Char) : List Char :=
  ((cs.dropWhile Char.isWhitespace).reverse.dropWhile Char.isWhitespace).reverse

/-- Python's `str.strip()`. -/
def pyStrip (s : String) : String :=
  String.mk (trimChars s.toList)

/-- Worker for whitespace splitting: accumulate the current token
(reversed) and emit it at each whitespace run or at the end. -/
def splitWsAux : List Char → List Char → List (List Char)
  | [], acc => if acc.isEmpty then [] else [acc.reverse]
  | c :: cs, acc =>
    if c.isWhitespace then
      if acc.isEmpty then splitWsAux cs [] else acc.reverse :: splitWsAux cs []
    else splitWsAux cs (c :: acc)

/-- Python's `str.split()` with no separator: split on whitespace runs,
dropping empty tokens (this subsumes the preceding `strip()`). -/
def splitWs (cs : List Char) : List (List Char) :=
  splitWsAux cs []

/-- Split a character list on every occurrence of `sep`, keeping empty
segments (Python's `str.split(sep)`). -/
def splitOnChar (sep : Char) : List Char → List (List Char)
  | [] => [[]]
  | c :: cs =>
    if c = sep then [] :: splitOnChar sep cs
    else
      match splitOnChar sep cs with
      | [] => [[c]]
      | t :: ts => (c :: t) :: ts

/-! ## Land-registry data model (`api/src/cadastral_api/models/entities.py`)

Fields whose values are raw upstream JSON never consulted by any claim
(`activePlumbs`, the `parcelParts`/`possessionSheets` dict lists inside
`LRUnitParcel`) are omitted; every field and method a claim touches is
embedded. -/

/-- Embeds `Possessor`: individual owner/possessor attached to a possession sheet.
`ownership` and `address` are frequently missing upstream (`None`). -/
structure Possessor where
  name : String
  ownership : Option String
  address : Option String

/-- Embeds `Possessor.ownership_decimal`: parse the ownership fraction string with
Python's `Fraction`, returning `none` when the field is falsy (absent or
empty) or when parsing raises `ValueError`/`ZeroDivisionError`.
The source's final `float(frac)` conversion is modelled by the exact
rational itself.  Totality of this function is the "never raises"
guarantee of the source's `try`/`except`. -/
def Possessor.ownership_decimal (p : Possessor) : Option ℚ :=
  match p.ownership with
  | none => none
  | some s => if s = "" then none else pythonFraction s

/-- Embeds `PossessionSheet`: cadastral ownership record holding possessors. -/
structure PossessionSheet where
  possession_sheet_id : Int
  possession_sheet_number : String
  cad_municipality_id : Int
  cad_municipality_reg_num : Option String
  cad_municipality_name : Option String
  possession_sheet_type_id : Option Int
  possessors : List Possessor

/-- Embeds `PossessionSheet.total_ownership`: Python builds
`[p.ownership_decimal for p in self.possessors if p.ownership_decimal]`
— the truthiness filter drops both `None` and `0.0` — and returns the sum
of that list, or `None` when the list is empty. -/
def PossessionSheet.total_ownership (sheet : PossessionSheet) : Option ℚ :=
  let ownerships := sheet.possessors.filterMap fun p =>
    match p.ownership_decimal with
    | some q => if q = 0 then none else some q
    | none => none
  if ownerships.isEmpty then none else some ownerships.sum

/-- The truthiness filter of `total_ownership` as a function: keep a
possessor's parsed decimal only when it is truthy (present and
non-zero). -/
def truthyOwnership (p : Possessor) : Option ℚ :=
  match p.ownership_decimal with
  | some q => if q = 0 then none else some q
  | none => none

/-- Embeds `PartyType`: classification of a legal person. -/
inductive PartyType where
  | individual
  | company
  | state
  | municipality
  | unknown
deriving DecidableEq, Repr

/-- Embeds `Party`: legal person that can own property. -/
structure Party where
  lr_owner_id : Option Int
  name : String
  address : Option String
  tax_number : Option String
  party_type : PartyType
deriving DecidableEq, Repr

/-- Embeds `LREntry`: single land-registry event (audit-trail entry).
The optional parsed fields (`action_type`, `diary_number`, …) default to
`None` upstream and are consulted by no claim. -/
structure LREntry where
  description : String
  order_number : String
deriving DecidableEq, Repr

/-- Embeds `LRShare`: one ownership share of sheet B.  `sub_shares_and_entries`
is `list[dict]` in the source — raw upstream dictionaries whose observed
shape is that of a share (own `status`, own `lrOwners`, possibly further
nesting), so it is embedded as a nested list of shares.  The numeric
fraction fields (`numerator`/`denominator`) are `None` upstream and
consulted by no claim. -/
inductive LRShare where
  | mk (lr_unit_share_id : Int) (description : String) (order_number : String)
       (status : Int) (owners : List Party) (sub_shares_and_entries : List LRShare)

/-- Status code of a share (`status`, 0 = active). -/
def LRShare.status : LRShare → Int
  | .mk _ _ _ s _ _ => s

/-- Direct owners of a share (`lrOwners`). -/
def LRShare.owners : LRShare → List Party
  | .mk _ _ _ _ os _ => os

/-- Sub-shares of a share (`subSharesAndEntries`). -/
def LRShare.sub_shares_and_entries : LRShare → List LRShare
  | .mk _ _ _ _ _ subs => subs

/-- Embeds `LRShare.is_active`: the share is currently valid (`status == 0`). -/
def LRShare.is_active (sh : LRShare) : Bool :=
  sh.status == 0

/-- Embeds `OwnershipSheetB`: sheet B, the aggregated ownership view. -/
structure OwnershipSheetB where
  lr_unit_shares : List LRShare
  lr_entries : List LREntry

/-- Loop body of `OwnershipSheetB.get_current_owners`: for each share in
order, if it is active, extend the accumulator with its *direct* owners.
The source never consults `sub_shares_and_entries` here. -/
def currentOwnersLoop : List LRShare → List Party
  | [] => []
  | sh :: rest => (if sh.is_active then sh.owners else []) ++ currentOwnersLoop rest

/-- Embeds `OwnershipSheetB.get_current_owners`: all parties with active
ownership shares, as the source computes them (direct owners only). -/
def OwnershipSheetB.get_current_owners (b : OwnershipSheetB) : List Party :=
  currentOwnersLoop b.lr_unit_shares

end Cadastral

namespace Cadastral

mutual

/-- Modelled from the spec: the recursive flatten of one share that the
specification (and the repository's own test suite, via the
`LRShare.get_all_owners` / recursive `current_owners` it exercises)
prescribes for `current_owners`, but whose implementation is not among the
provided sources — "for each Share with status active, yield its direct
owners; if it has no direct owners but has sub-shares, recurse into each
active sub-share", each sub-share's own status checked independently. -/
def specShareOwners : LRShare → List Party
  | .mk _ _ _ status owners subs =>
    if status = 0 then
      if owners.isEmpty then specSharesOwners subs else owners
    else []

/-- Modelled from the spec: `specShareOwners` mapped over a share list,
concatenated in order. -/
def specSharesOwners : List LRShare → List Party
  | [] => []
  | sh :: rest => specShareOwners sh ++ specSharesOwners rest

end

/-- Modelled from the spec: `current_owners(unit)` as the specification
states it — the recursive flatten over all of sheet B's shares. -/
def specCurrentOwners (b : OwnershipSheetB) : List Party :=
  specSharesOwners b.lr_unit_shares

/-- Embeds `LRUnitParcel`: cadastral parcel registered under a land-registry
unit (sheet A entry).  The raw `parcelParts`/`possessionSheets` dict
lists, consulted by no claim, are omitted. -/
structure LRUnitParcel where
  parcel_id : Int
  parcel_number : String
  cad_municipality_id : Int
  cad_municipality_reg_num : String
  cad_municipality_name : String
  institution_id : Int
  address : Option String
  area : String
  has_building_right : Bool

/-- Embeds `LRUnitParcel.area_numeric`: `int(self.area)`, falling back to 0 on
`ValueError`. -/
def LRUnitParcel.area_numeric (p : LRUnitParcel) : Int :=
  (pythonInt p.area).getD 0

/-- Embeds `SheetAParcelList`: sheet A1, the parcel list. -/
structure SheetAParcelList where
  cad_parcels : List LRUnitParcel

/-- Embeds `SheetAParcelList.total_area`: sum of `area_numeric` over parcels. -/
def SheetAParcelList.total_area (a : SheetAParcelList) : Int :=
  (a.cad_parcels.map LRUnitParcel.area_numeric).sum

/-- Embeds `SheetAAdditionalInfo`: sheet A2 (usually empty). -/
structure SheetAAdditionalInfo where
  lr_entries : List LREntry

/-- Embeds `EncumbranceGroup`: group of related encumbrance entries of sheet C. -/
structure EncumbranceGroup where
  description : String
  share_order_number : String
  lr_entries : List LREntry

/-- Embeds `EncumbranceSheetC`: sheet C, the encumbrance view. -/
structure EncumbranceSheetC where
  lr_entry_groups : List EncumbranceGroup

/-- Embeds `EncumbranceSheetC.has_encumbrances`: non-empty group list. -/
def EncumbranceSheetC.has_encumbrances (c : EncumbranceSheetC) : Bool :=
  c.lr_entry_groups.length > 0

/-- Embeds `LandRegistryUnitDetailed`: complete land-registry unit with its three
sheets, as returned by the `/lr/lr-unit` endpoint.  The raw
`activePlumbs` dict list, consulted by no claim, is omitted. -/
structure LandRegistryUnitDetailed where
  lr_unit_id : Int
  lr_unit_number : String
  main_book_id : Int
  main_book_name : String
  cadastre_municipality_id : Int
  institution_id : Int
  institution_name : String
  status : String
  status_name : String
  verificated : Bool
  condominiums : Bool
  lr_unit_type_id : Int
  lr_unit_type_name : String
  last_diary_number : String
  ownership_sheet_b : OwnershipSheetB
  possession_sheet_a1 : SheetAParcelList
  possession_sheet_a2 : SheetAAdditionalInfo
  encumbrance_sheet_c : EncumbranceSheetC

/-- Embeds `LandRegistryUnitDetailed.get_all_owners`: delegates to sheet B's
`get_current_owners`. -/
def LandRegistryUnitDetailed.get_all_owners (u : LandRegistryUnitDetailed) : List Party :=
  u.ownership_sheet_b.get_current_owners

/-- Modelled from the spec: the domain-specific condominium marker
substring against which the unit-type name is matched.  The
`is_condominium` implementation is not among the provided sources (only
its CLI/MCP callers and the test suite are); the spec fixes the marker
only through its two test values, for which the common substring of the
condominium type name is the Croatian phrase for condominium ownership. -/
def condominiumMarker : String := "ETAŽNO VLASNIŠTVO"

/-- Modelled from the spec: `is_condominium(unit)` — true iff the
unit-type name contains the condominium marker substring (case-sensitive
exact substring match). -/
def LandRegistryUnitDetailed.is_condominium (u : LandRegistryUnitDetailed) : Bool :=
  strContainsSub u.lr_unit_type_name condominiumMarker

end Cadastral

namespace Cadastral

/-! ## GML geometry parser (`src/cadastral_api/gis/parser.py`)

An already-parsed XML document is modelled by the list of its
`gml:featureMember` elements (the only elements the parser visits); each
feature either lacks an `oss:CESTICE` child (`none`) or carries one
(`some c`).  Scalar children are `Option String` — `none` when the
element or its text node is absent.  Malformed XML at the document level
is fatal in the source and outside this model (every value of the model
is a successfully parsed document). -/

/-- Planar coordinate (`Coordinate` of `gis_entities.py`); Python floats are
modelled as exact rationals. -/
structure Coordinate where
  x : ℚ
  y : ℚ
deriving DecidableEq, Repr

/-- Embeds `ParcelGeometry` of `gis_entities.py`. -/
structure ParcelGeometry where
  cestica_id : String
  broj_cestice : String
  povrsina_graficka : ℚ
  maticni_broj_ko : String
  coordinates : List Coordinate
  srs_name : String
deriving DecidableEq, Repr

/-- The `gml:Polygon` block inside `oss:GEOM`: its `srsName` attribute
(`""` when absent, as `polygon.get("srsName", "")` yields) and its
`gml:coordinates` text (`none` when the element or its text is absent). -/
structure GMLPolygon where
  srsName : String
  coords : Option String

/-- An `oss:CESTICE` feature record: the four scalar child texts and the
polygon found under `oss:GEOM` (`none` when `oss:GEOM` or the
`gml:Polygon` under it is absent). -/
structure Cestice where
  cestica_id : Option String
  broj_cestice : Option String
  povrsina : Option String
  maticni_broj : Option String
  polygon : Option GMLPolygon

/-- A GML document: its `gml:featureMember` elements, each with or
without an `oss:CESTICE` child. -/
abbrev GMLDocument : Type := List (Option Cestice)

/-- Embeds `GMLParser._get_text`: the stripped text of a child element, or `""`
when the element is absent or its text is falsy. -/
def getText (o : Option String) : String :=
  match o with
  | none => ""
  | some t => if t = "" then "" else pyStrip t

/-- SRS normalization inside `_parse_parcel`: when the `srsName`
attribute contains `"epsg.xml#"`, replace it by `EPSG:` followed by the
part after the last `#` (`srs_name.split("#")[-1]`); else pass through. -/
def normalizeSrs (srs : String) : String :=
  if strContainsSub srs "epsg.xml#" then
    "EPSG:" ++ String.mk (((splitOnChar '#' srs.toList).getLast?).getD srs.toList)
  else srs

/-- One token of `_parse_coordinates`: tokens without a comma are
skipped; otherwise split at the first comma, strip both halves and parse
each as a Python float, skipping the token when either fails. -/
def parseCoordToken (pair : String) : Option Coordinate :=
  if !(pair.toList.contains ',') then none
  else
    let sp := splitAtFirst ',' pair.toList
    match parseFloat (pyStrip (String.mk sp.1)), parseFloat (pyStrip (String.mk ((sp.2).getD []))) with
    | some x, some y => some ⟨x, y⟩
    | _, _ => none

/-- The whitespace-split token list of a coordinates text
(`coord_text.strip().split()`: runs of whitespace separate tokens, empty
tokens do not arise). -/
def coordTokens (s : String) : List String :=
  (splitWs s.toList).map String.mk

/-- The token loop of `_parse_coordinates`: keep each token's parsed
coordinate, skip failures individually. -/
def parseCoordsLoop : List String → List Coordinate
  | [] => []
  | p :: rest =>
    match parseCoordToken p with
    | some c => c :: parseCoordsLoop rest
    | none => parseCoordsLoop rest

/-- Embeds `GMLParser._parse_coordinates`. -/
def parseCoordinates (coord_text : String) : List Coordinate :=
  parseCoordsLoop (coordTokens coord_text)

/-- Embeds `GMLParser._parse_parcel`: extract the four scalars via `_get_text`
and fail (`none`) when any is empty; fail when the `GEOM`/`Polygon` block
or the `gml:coordinates` element (or its text) is missing; normalize the
SRS; parse the coordinates; convert the declared area with `float(...)`,
whose `ValueError` the surrounding `except` turns into `none`. -/
def parseParcel (c : Cestice) : Option ParcelGeometry :=
  let cid := getText c.cestica_id
  let broj := getText c.broj_cestice
  let pov := getText c.povrsina
  let mat := getText c.maticni_broj
  if cid = "" ∨ broj = "" ∨ pov = "" ∨ mat = "" then none
  else
    match c.polygon with
    | none => none
    | some poly =>
      match poly.coords with
      | none => none
      | some ct =>
        match parseFloat pov with
        | none => none
        | some area =>
          some ⟨cid, broj, area, mat, parseCoordinates ct, normalizeSrs poly.srsName⟩

/-- Embeds `GMLParser.get_parcel_by_number`: linear scan over feature members;
features lacking a `CESTICE` child or a `BROJ_CESTICE` text are skipped;
at the first feature whose raw (unstripped) parcel-number text equals the
query exactly, return `_parse_parcel` of that record (which may itself be
`none`); `none` after the loop. -/
def getParcelByNumber : GMLDocument → String → Option ParcelGeometry
  | [], _ => none
  | none :: rest, q => getParcelByNumber rest q
  | some c :: rest, q =>
    match c.broj_cestice with
    | none => getParcelByNumber rest q
    | some t => if t = q then parseParcel c else getParcelByNumber rest q

/-- Embeds `GMLParser.get_all_parcels`: collect `_parse_parcel` successes over
all feature members carrying a `CESTICE` child, in order. -/
def getAllParcels : GMLDocument → List ParcelGeometry
  | [] => []
  | none :: rest => getAllParcels rest
  | some c :: rest =>
    match parseParcel c with
    | some p => p :: getAllParcels rest
    | none => getAllParcels rest

/-- Embeds `GMLParser.count_parcels`: the number of `gml:featureMember`
elements, parsable or not. -/
def countParcels (doc : GMLDocument) : Nat :=
  List.length doc

end Cadastral

namespace Cadastral

/-! ## GIS cache manager (`api/src/cadastral_api/gis/cache.py`)

All paths the class touches for one municipality are derived
deterministically from its registration number (`ko-<code>/ko-<code>.zip`
and `ko-<code>/<filename>`), so the file-system state relevant to one
municipality and the fixed filename `katastarske_cestice.gml` is two
booleans; the download collaborator (`httpx` GET) and the archive read
(`zipfile.ZipFile(...).extract`) are counted as effects. -/

/-- File-system state of one municipality's cache directory plus effect
counters for the two collaborators. -/
structure CacheState where
  zipPresent : Bool
  gmlPresent : Bool
  downloads : Nat
  extractions : Nat
deriving DecidableEq, Repr

/-- Embeds `GISCache.is_cached`: the ZIP exists (pure existence check). -/
def isCached (s : CacheState) : Bool :=
  s.zipPresent

/-- Embeds `GISCache.download_municipality`: return at once when the ZIP exists
and `force` is unset; otherwise perform the HTTP download and write the
ZIP. -/
def downloadMunicipality (force : Bool) (s : CacheState) : CacheState :=
  if s.zipPresent && !force then s
  else { s with zipPresent := true, downloads := s.downloads + 1 }

/-- Embeds `GISCache.extract_gml`: `FileNotFoundError` (`none`) when the ZIP is
absent; extract from the archive only when the target file does not yet
exist; return the path (the updated state). -/
def extractGml (s : CacheState) : Option CacheState :=
  if !s.zipPresent then none
  else if s.gmlPresent then some s
  else some { s with gmlPresent := true, extractions := s.extractions + 1 }

/-- Embeds `GISCache.get_parcel_data`: download when `auto_download` is set and
the municipality is not cached, then extract the parcels GML. -/
def getParcelData (autoDownload : Bool) (s : CacheState) : Option CacheState :=
  let s1 := if autoDownload && !isCached s then downloadMunicipality false s else s
  extractGml s1

/-! ## Municipality resolution
(`cli/src/cadastral_cli/commands/search.py` and
`cli/src/cadastral_cli/batch_processor.py`)

The API client is a collaborator; it is modelled by the function
`search : String → List MuniResult` giving the municipality-search
results for a search term.  The CLI variant's two `SystemExit` error
paths and the batch variant's raised `MUNICIPALITY_NOT_FOUND` are the
`Except.error` values below. -/

deriving instance DecidableEq for Except

/-- One municipality search result, with the two fields the resolvers
read (`municipality_name` is the part of `code_and_name` after the first
space in the source; it is a plain field of the collaborator's result
here). -/
structure MuniResult where
  municipality_name : String
  municipality_reg_num : String
deriving DecidableEq, Repr

/-- Error outcomes of municipality resolution: no match found, or (CLI
variant only) several matches requiring disambiguation. -/
inductive ResolveErr where
  | notFound
  | ambiguous
deriving DecidableEq, Repr

/-- Python's `str.isdigit()` on ASCII strings: non-empty and all digits. -/
def pyIsDigit (s : String) : Bool :=
  !s.toList.isEmpty && s.toList.all Char.isDigit

/-- Embeds `_resolve_municipality` of `commands/search.py` (strict CLI variant):
all-digit input is returned unchanged; otherwise search by name — an
empty result list is a not-found error, more than one result is a
disambiguation error, and a single result yields its registration
number. -/
def resolveMunicipalityCLI (search : String → List MuniResult) (m : String) :
    Except ResolveErr String :=
  if pyIsDigit m then .ok m
  else
    match search m with
    | [] => .error .notFound
    | r :: rest =>
      if 0 < rest.length then .error .ambiguous
      else .ok r.municipality_reg_num

/-- Python's `str.upper()` restricted to ASCII letters (the
case-insensitive comparison below is only ever exercised on names whose
case-relevant characters are ASCII in this development). -/
def pyUpper (s : String) : String :=
  String.mk (s.toList.map Char.toUpper)

/-- Embeds `_resolve_municipality` of `batch_processor.py` (batch variant):
input that is all digits *and* exactly six characters long is returned
unchanged; otherwise search by name — an empty result list raises
`MUNICIPALITY_NOT_FOUND`; else return the first result whose name equals
the input up to case, falling back to the first result. -/
def resolveMunicipalityBatch (search : String → List MuniResult) (m : String) :
    Except ResolveErr String :=
  if pyIsDigit m && m.length = 6 then .ok m
  else
    match search m with
    | [] => .error .notFound
    | r :: rest =>
      match (r :: rest).find? (fun x => pyUpper x.municipality_name = pyUpper m) with
      | some exact => .ok exact.municipality_reg_num
      | none => .ok r.municipality_reg_num

end Cadastral

namespace Cadastral

/-! ## Batch processor (`cli/src/cadastral_cli/batch_processor.py`)

Per item, the collaborator calls (`get_parcel_info`, or municipality
resolution followed by `get_parcel_by_number`) either yield a truthy
parcel payload, yield `None`, or raise; the three outcomes per input are
the `ItemOutcome` values.  Progress-bar handling is display-only plumbing
and outside the model. -/

/-- Embeds `CadastralAPIError`: the structured error condition of
`exceptions.py`, carrying its error-type tag (the `ErrorType` string
value) and its message. -/
structure CadErr where
  error_type : String
  message : String
deriving DecidableEq, Repr

/-- An exception escaping one item's processing: a `CadastralAPIError`,
or any other exception (the `except Exception` branch). -/
inductive PyExc where
  | api (e : CadErr)
  | unexpected (msg : String)
deriving DecidableEq, Repr

/-- Outcome of the collaborator calls for one batch item. -/
inductive ItemOutcome where
  | found
  | notFound
  | raises (e : PyExc)
deriving DecidableEq, Repr

/-- One entry of the accumulated `results` list: the fields the claim
consults (`status`, and `error_type` for error entries). -/
inductive RStatus where
  | success
  | failure (error_type : String)
deriving DecidableEq, Repr

/-- The `error_type` string recorded for a caught exception:
`e.error_type.value` for a `CadastralAPIError`, `"unexpected_error"`
otherwise. -/
def errTypeOf : PyExc → String
  | .api e => e.error_type
  | .unexpected _ => "unexpected_error"

/-- Embeds `BatchSummary`: the tally returned by `process_batch`. -/
structure BatchSummary where
  total : Nat
  successful : Nat
  failed : Nat
  results : List RStatus
deriving DecidableEq, Repr

/-- The item loop of `process_batch`: a truthy payload appends a success
and bumps `successful`; a `None` payload appends a `parcel_not_found`
error and bumps `failed` (no exception is raised, so `continue_on_error`
is not consulted); a raised exception appends its error entry, bumps
`failed`, and — when `continue_on_error` is unset — re-raises the very
exception object (`raise` with no argument). -/
def processBatchGo (co : Bool) :
    List ItemOutcome → Nat → Nat → List RStatus → Except PyExc (Nat × Nat × List RStatus)
  | [], s, f, acc => .ok (s, f, acc.reverse)
  | it :: rest, s, f, acc =>
    match it with
    | .found => processBatchGo co rest (s + 1) f (.success :: acc)
    | .notFound => processBatchGo co rest s (f + 1) (.failure "parcel_not_found" :: acc)
    | .raises e =>
      if co then processBatchGo co rest s (f + 1) (.failure (errTypeOf e) :: acc)
      else .error e

/-- Embeds `process_batch`: run the item loop from empty tallies and wrap the
final counts in a `BatchSummary` whose `total` is the input length; a
propagated exception is the loop's unchanged `Except.error`. -/
def processBatch (co : Bool) (items : List ItemOutcome) : Except PyExc BatchSummary :=
  match processBatchGo co items 0 0 [] with
  | .error e => .error e
  | .ok (s, f, acc) => .ok ⟨items.length, s, f, acc⟩

end Cadastral

namespace Cadastral

/-! ## Concrete sample inputs used in the theorems below -/

/-- Owner reachable only through a sub-share (C1 failing input). -/
def c1SubOwner : Party :=
  ⟨some 60930295, "Sub-share Co-owner", some "Test Street 5", none, PartyType.unknown⟩

/-- Active sub-share carrying the only owner. -/
def c1SubShare : LRShare :=
  .mk 46503710 "16.1. Suvlasnički dio: 1/2" "16.1" 0 [c1SubOwner] []

/-- Active share with no direct owners but one active sub-share. -/
def c1Share : LRShare :=
  .mk 46503709 "16. Suvlasnički dio: 61/4651 ETAŽNO VLASNIŠTVO (E-16)" "16" 0 [] [c1SubShare]

/-- Sheet B whose only share carries its owner in a sub-share. -/
def c1SheetB : OwnershipSheetB :=
  ⟨[c1Share], []⟩

/-- Detailed unit wrapping `c1SheetB`. -/
def c1Unit : LandRegistryUnitDetailed :=
  ⟨13122553, "2224", 21277, "TESTMUNICIPALITY", 2387, 284, "Test Land Registry Office",
   "0", "Aktivan", true, false, 2, "ETAŽNO VLASNIŠTVO S ODREĐENIM OMJERIMA", "Z-100/2025",
   c1SheetB, ⟨[]⟩, ⟨[]⟩, ⟨[]⟩⟩

/-- A condominium-typed detailed unit (C2). -/
def c2CondoUnit : LandRegistryUnitDetailed :=
  ⟨13122554, "2224", 21277, "TESTMUNICIPALITY", 2387, 284, "Test Land Registry Office",
   "0", "Aktivan", true, false, 2, "ETAŽNO VLASNIŠTVO S ODREĐENIM OMJERIMA", "Z-101/2025",
   ⟨[], []⟩, ⟨[]⟩, ⟨[]⟩, ⟨[]⟩⟩

/-- A plain ownership-typed detailed unit (C2). -/
def c2StandardUnit : LandRegistryUnitDetailed :=
  ⟨13122553, "769", 21277, "TESTMUNICIPALITY", 2387, 284, "Test Land Registry Office",
   "0", "Aktivan", true, false, 1, "VLASNIČKI", "Z-27986/2025",
   ⟨[], []⟩, ⟨[]⟩, ⟨[]⟩, ⟨[]⟩⟩

/-- Well-formed feature record for parcel `103/2` (C4). -/
def c4WellFormed : Cestice :=
  ⟨some "335006816", some "103/2", some "2588.77", some "334979",
   some ⟨"EPSG:3765", some "634024.09,4875754.42 634030.5,4875760.25"⟩⟩

/-- Feature record missing its area field (`oss:POVRSINA_GRAFICKA`). -/
def c4MissingArea : Cestice :=
  ⟨some "335006999", some "200", none, some "334979",
   some ⟨"EPSG:3765", some "1,2 3,4"⟩⟩

/-- A GML document with one well-formed and one malformed record. -/
def c4Doc : GMLDocument :=
  [some c4WellFormed, some c4MissingArea]

/-- The geometry the well-formed record parses to. -/
def c4Geometry : ParcelGeometry :=
  ⟨"335006816", "103/2", 258877 / 100, "334979",
   [⟨63402409 / 100, 487575442 / 100⟩, ⟨634030 + 1 / 2, 4875760 + 1 / 4⟩],
   "EPSG:3765"⟩

/-- Municipality-search collaborator returning no results (C7). -/
def c7EmptySearch : String → List MuniResult := fun _ => []

/-- Municipality-search collaborator returning two results, the second of
which matches the query `"SAVAR"` exactly by name (C7). -/
def c7TwoResults : String → List MuniResult :=
  fun _ => [⟨"SAVARSKO", "111111"⟩, ⟨"SAVAR", "222222"⟩]

end Cadastral

namespace Cadastral

/-! ## Helper lemmas -/

/-- Folding the fallible digit step over an all-digit list succeeds and
computes the pure digit fold. -/
theorem foldlDigitsSome (cs : List Char) : ∀ a : Nat, (∀ c ∈ cs, c.isDigit) →
    cs.foldl (fun acc d => acc.bind fun n => if d.isDigit then some (n * 10 + digitValue d) else none)
      (some a)
    = some (cs.foldl (fun n d => n * 10 + digitValue d) a) := by
  induction cs with
  | nil => intro a _; rfl
  | cons c cs ih =>
    intro a h
    have hc : c.isDigit := h c (List.mem_cons_self c cs)
    simp only [List.foldl_cons, Option.bind_eq_bind, Option.some_bind, if_pos hc]
    exact ih _ (fun d hd => h d (List.mem_cons_of_mem _ hd))

/-- Lemma: `parseDigits` succeeds on a non-empty all-digit list with value
`digitsVal`. -/
theorem parseDigits_eq_digitsVal (cs : List Char) (h0 : cs ≠ [])
    (h : ∀ c ∈ cs, c.isDigit) : parseDigits cs = some (digitsVal cs) := by
  cases cs with
  | nil => exact absurd rfl h0
  | cons c cs =>
    have hc : c.isDigit := h c (List.mem_cons_self c cs)
    show (if c.isDigit then _ else none) = _
    rw [if_pos hc, foldlDigitsSome cs (digitValue c) (fun d hd => h d (List.mem_cons_of_mem _ hd))]
    unfold digitsVal
    simp [List.foldl_cons]

/-- Lemma: `splitAtFirst` on a list whose separator first occurs between `ns`
and `ds` returns exactly that split. -/
theorem splitAtFirst_append_sep (sep : Char) (ns ds : List Char) (h : sep ∉ ns) :
    splitAtFirst sep (ns ++ sep :: ds) = (ns, some ds) := by
  induction ns with
  | nil => simp [splitAtFirst]
  | cons c cs ih =>
    have hc : ¬ (c = sep) := fun hh => h (hh ▸ List.mem_cons_self c cs)
    have hm : sep ∉ cs := fun hmm => h (List.mem_cons_of_mem _ hmm)
    simp only [List.cons_append, splitAtFirst, if_neg hc]
    rw [show cs.append (sep :: ds) = cs ++ sep :: ds from rfl, ih hm]

end Cadastral

namespace Cadastral

/-- A digit character is not one of the separator/sign characters. -/
theorem digit_ne_of_isDigit {c d : Char} (h : c.isDigit) (hd : ¬ d.isDigit) : c ≠ d :=
  fun hh => hd (hh ▸ h)

/-- Lemma: `fracUnsigned` on digit lists around a slash with a non-zero
denominator value. -/
theorem fracUnsigned_digits (ns ds : List Char) (hns : ns ≠ []) (hds : ds ≠ [])
    (h1 : ∀ c ∈ ns, c.isDigit) (h2 : ∀ c ∈ ds, c.isDigit) (hd : digitsVal ds ≠ 0) :
    fracUnsigned (ns ++ '/' :: ds) = some ((digitsVal ns : ℚ) / (digitsVal ds : ℚ)) := by
  have hslash : '/' ∉ ns := fun hm => absurd (h1 _ hm) (by decide)
  unfold fracUnsigned
  rw [splitAtFirst_append_sep '/' ns ds hslash]
  simp only [parseDigits_eq_digitsVal ns hns h1, parseDigits_eq_digitsVal ds hds h2,
    Option.bind_eq_bind, Option.some_bind, if_neg hd]

/-- Lemma: `fracUnsigned` on digit lists around a slash with denominator value
zero is `none` (the `ZeroDivisionError` branch). -/
theorem fracUnsigned_zero_den (ns ds : List Char) (hns : ns ≠ []) (hds : ds ≠ [])
    (h1 : ∀ c ∈ ns, c.isDigit) (h2 : ∀ c ∈ ds, c.isDigit) (hd : digitsVal ds = 0) :
    fracUnsigned (ns ++ '/' :: ds) = none := by
  have hslash : '/' ∉ ns := fun hm => absurd (h1 _ hm) (by decide)
  unfold fracUnsigned
  rw [splitAtFirst_append_sep '/' ns ds hslash]
  simp only [parseDigits_eq_digitsVal ns hns h1, parseDigits_eq_digitsVal ds hds h2,
    Option.bind_eq_bind, Option.some_bind, if_pos hd]

/-- Lemma: `parseSigned` skips directly to the unsigned parser when the first
character is a digit. -/
theorem parseSigned_of_digit (u : List Char → Option ℚ) (c : Char) (cs : List Char)
    (hc : c.isDigit) : parseSigned u (c :: cs) = u (c :: cs) := by
  simp only [parseSigned]
  rw [if_neg (digit_ne_of_isDigit hc (by decide)), if_neg (digit_ne_of_isDigit hc (by decide))]

/-- Lemma: `pythonFraction` on the string `"n/d"` built from digit lists with a
non-zero denominator value equals the exact rational `n / d`. -/
theorem pythonFraction_digits (ns ds : List Char) (hns : ns ≠ []) (hds : ds ≠ [])
    (h1 : ∀ c ∈ ns, c.isDigit) (h2 : ∀ c ∈ ds, c.isDigit) (hd : digitsVal ds ≠ 0) :
    pythonFraction (String.mk (ns ++ '/' :: ds))
      = some ((digitsVal ns : ℚ) / (digitsVal ds : ℚ)) := by
  obtain ⟨n0, ns', rfl⟩ := List.exists_cons_of_ne_nil hns
  have hn0 : n0.isDigit := h1 n0 (List.mem_cons_self _ _)
  show parseSigned fracUnsigned (n0 :: (ns' ++ '/' :: ds)) = _
  rw [parseSigned_of_digit _ _ _ hn0]
  exact fracUnsigned_digits (n0 :: ns') ds hns hds h1 h2 hd

/-- Lemma: `pythonFraction` on `"n/d"` with denominator value zero is `none`. -/
theorem pythonFraction_digits_zero_den (ns ds : List Char) (hns : ns ≠ []) (hds : ds ≠ [])
    (h1 : ∀ c ∈ ns, c.isDigit) (h2 : ∀ c ∈ ds, c.isDigit) (hd : digitsVal ds = 0) :
    pythonFraction (String.mk (ns ++ '/' :: ds)) = none := by
  obtain ⟨n0, ns', rfl⟩ := List.exists_cons_of_ne_nil hns
  have hn0 : n0.isDigit := h1 n0 (List.mem_cons_self _ _)
  show parseSigned fracUnsigned (n0 :: (ns' ++ '/' :: ds)) = _
  rw [parseSigned_of_digit _ _ _ hn0]
  exact fracUnsigned_zero_den (n0 :: ns') ds hns hds h1 h2 hd

/-- Lemma: `pythonFraction` on `"-n/d"` negates the unsigned value. -/
theorem pythonFraction_neg_digits (ns ds : List Char) (hns : ns ≠ []) (hds : ds ≠ [])
    (h1 : ∀ c ∈ ns, c.isDigit) (h2 : ∀ c ∈ ds, c.isDigit) (hd : digitsVal ds ≠ 0) :
    pythonFraction (String.mk ('-' :: (ns ++ '/' :: ds)))
      = some (-((digitsVal ns : ℚ) / (digitsVal ds : ℚ))) := by
  show parseSigned fracUnsigned ('-' :: (ns ++ '/' :: ds)) = _
  simp only [parseSigned]
  rw [if_pos trivial, fracUnsigned_digits ns ds hns hds h1 h2 hd]
  rfl

/-- A string built from a list containing a slash is non-empty. -/
theorem mk_slash_ne_empty (ns ds : List Char) : String.mk (ns ++ '/' :: ds) ≠ "" := by
  intro h
  have h2 := congrArg String.data h
  simp at h2

end Cadastral

namespace Cadastral

/-- A string built from a non-empty character list is non-empty. -/
theorem mk_cons_ne_empty (c : Char) (l : List Char) : String.mk (c :: l) ≠ "" := by
  intro h
  have h2 := congrArg String.data h
  simp at h2

/-- C1: the claim states that `current_owners`
(`OwnershipSheetB.get_current_owners` / `LandRegistryUnitDetailed.get_all_owners`)
recursively flattens sub-shares, so that owners reachable only via active
sub-shares of an active share lacking direct owners are included.  On the
failing input `c1SheetB` — one active share with no direct owners and one
active sub-share carrying `c1SubOwner` — the source's `get_current_owners`
returns the empty list (it never consults `sub_shares_and_entries`), while
the spec-modelled recursive flatten `specCurrentOwners` yields the
sub-share's owner as the claim and the repository's own test suite
require. -/
theorem c1_get_current_owners_ignores_sub_shares :
    c1SheetB.get_current_owners = []
    ∧ c1Unit.get_all_owners = []
    ∧ c1Share.is_active = true
    ∧ c1Share.owners = []
    ∧ c1Share.sub_shares_and_entries = [c1SubShare]
    ∧ c1SubShare.is_active = true
    ∧ c1SubShare.owners = [c1SubOwner]
    ∧ specCurrentOwners c1SheetB = [c1SubOwner] :=
  ⟨rfl, rfl, rfl, rfl, rfl, rfl, rfl, rfl⟩

/-- C2: `is_condominium(unit)` is true iff the unit-type name contains
the condominium marker substring (case-sensitive substring match); it is
true for the type name `"ETAŽNO VLASNIŠTVO S ODREĐENIM OMJERIMA"` and
false for `"VLASNIČKI"`.  (`is_condominium` is modelled from the spec:
its implementation is absent from the provided sources.) -/
theorem c2_is_condominium :
    (∀ u : LandRegistryUnitDetailed,
       u.is_condominium = strContainsSub u.lr_unit_type_name condominiumMarker)
    ∧ c2CondoUnit.lr_unit_type_name = "ETAŽNO VLASNIŠTVO S ODREĐENIM OMJERIMA"
    ∧ c2CondoUnit.is_condominium = true
    ∧ c2StandardUnit.lr_unit_type_name = "VLASNIČKI"
    ∧ c2StandardUnit.is_condominium = false := by
  refine ⟨fun u => rfl, rfl, by decide, rfl, by decide⟩

/-- C6: starting from an uncached state, `get_parcel_data` with
`auto_download` performs exactly one archive download and exactly one
extraction, and a second call returns the identical state — it neither
calls the download collaborator nor re-reads the archive; moreover
`extract_gml` on an already-extracted state reuses the extracted copy
unchanged. -/
theorem c6_cache_idempotent :
    ∀ d e : Nat,
      getParcelData true ⟨false, false, d, e⟩ = some ⟨true, true, d + 1, e + 1⟩
      ∧ getParcelData true ⟨true, true, d + 1, e + 1⟩ = some ⟨true, true, d + 1, e + 1⟩
      ∧ extractGml ⟨true, true, d, e⟩ = some ⟨true, true, d, e⟩ := by
  intro d e
  refine ⟨?_, ?_, ?_⟩ <;>
    simp [getParcelData, isCached, downloadMunicipality, extractGml]

end Cadastral

namespace Cadastral

/-- C3: for fraction strings of the form `"n/d"` (optionally signed) with
integer digit runs and a positive denominator, `Possessor.ownership_decimal`
is exactly the rational `n / d` (floats are modelled as exact rationals,
so "exactly within floating tolerance" is rational equality); `"0/5"`
yields zero, not the unspecified value; a malformed fraction (non-numeric,
zero denominator, or empty/absent) yields `none`; and the function is
total, which is the "never raises" guarantee. -/
theorem c3_ownership_decimal_parse :
    (∀ (nm : String) (ad : Option String) (ns ds : List Char),
       ns ≠ [] → ds ≠ [] → (∀ c ∈ ns, c.isDigit) → (∀ c ∈ ds, c.isDigit) →
       digitsVal ds ≠ 0 →
       Possessor.ownership_decimal ⟨nm, some (String.mk (ns ++ '/' :: ds)), ad⟩
         = some ((digitsVal ns : ℚ) / (digitsVal ds : ℚ)))
    ∧ (∀ (nm : String) (ad : Option String) (ns ds : List Char),
       ns ≠ [] → ds ≠ [] → (∀ c ∈ ns, c.isDigit) → (∀ c ∈ ds, c.isDigit) →
       digitsVal ds ≠ 0 →
       Possessor.ownership_decimal ⟨nm, some (String.mk ('-' :: (ns ++ '/' :: ds))), ad⟩
         = some (-((digitsVal ns : ℚ) / (digitsVal ds : ℚ))))
    ∧ (∀ (nm : String) (ad : Option String),
       Possessor.ownership_decimal ⟨nm, some "0/5", ad⟩ = some 0)
    ∧ (∀ (nm : String) (ad : Option String),
       Possessor.ownership_decimal ⟨nm, none, ad⟩ = none)
    ∧ (∀ (nm : String) (ad : Option String),
       Possessor.ownership_decimal ⟨nm, some "", ad⟩ = none)
    ∧ (∀ (nm : String) (ad : Option String) (ns ds : List Char),
       ns ≠ [] → ds ≠ [] → (∀ c ∈ ns, c.isDigit) → (∀ c ∈ ds, c.isDigit) →
       digitsVal ds = 0 →
       Possessor.ownership_decimal ⟨nm, some (String.mk (ns ++ '/' :: ds)), ad⟩ = none)
    ∧ (∀ (nm : String) (ad : Option String),
       Possessor.ownership_decimal ⟨nm, some "abc", ad⟩ = none) := by
  refine ⟨?_, ?_,
    fun nm ad => by
      show (if ("0/5" : String) = "" then none else pythonFraction "0/5") = some 0
      rw [if_neg (by decide : ¬ ("0/5" : String) = "")]
      rw [show ("0/5" : String) = String.mk (['0'] ++ '/' :: ['5']) from rfl]
      rw [pythonFraction_digits ['0'] ['5'] (by decide) (by decide) (by decide) (by decide)
        (by decide)]
      norm_num [show digitsVal ['0'] = 0 from rfl, show digitsVal ['5'] = 5 from rfl],
    fun nm ad => rfl,
    fun nm ad => by
      show (if ("" : String) = "" then none else pythonFraction "") = none
      decide,
    ?_,
    fun nm ad => by
      show (if ("abc" : String) = "" then none else pythonFraction "abc") = none
      decide⟩
  · intro nm ad ns ds hns hds h1 h2 hd
    show (if String.mk (ns ++ '/' :: ds) = "" then none
          else pythonFraction (String.mk (ns ++ '/' :: ds))) = _
    rw [if_neg (mk_slash_ne_empty ns ds), pythonFraction_digits ns ds hns hds h1 h2 hd]
  · intro nm ad ns ds hns hds h1 h2 hd
    show (if String.mk ('-' :: (ns ++ '/' :: ds)) = "" then none
          else pythonFraction (String.mk ('-' :: (ns ++ '/' :: ds)))) = _
    rw [if_neg (mk_cons_ne_empty _ _), pythonFraction_neg_digits ns ds hns hds h1 h2 hd]
  · intro nm ad ns ds hns hds h1 h2 hd
    show (if String.mk (ns ++ '/' :: ds) = "" then none
          else pythonFraction (String.mk (ns ++ '/' :: ds))) = _
    rw [if_neg (mk_slash_ne_empty ns ds), pythonFraction_digits_zero_den ns ds hns hds h1 h2 hd]

/-- Witness for C3 at concrete inputs: `"3/4"`, `"-3/4"` and `"1/0"`. -/
theorem c3_witness :
    Possessor.ownership_decimal ⟨"A", some "3/4", none⟩
      = some ((digitsVal ['3'] : ℚ) / (digitsVal ['4'] : ℚ))
    ∧ Possessor.ownership_decimal ⟨"B", some "-3/4", none⟩
      = some (-((digitsVal ['3'] : ℚ) / (digitsVal ['4'] : ℚ)))
    ∧ Possessor.ownership_decimal ⟨"C", some "1/0", none⟩ = none :=
  ⟨c3_ownership_decimal_parse.1 "A" none ['3'] ['4']
      (by decide) (by decide) (by decide) (by decide) (by decide),
   c3_ownership_decimal_parse.2.1 "B" none ['3'] ['4']
      (by decide) (by decide) (by decide) (by decide) (by decide),
   c3_ownership_decimal_parse.2.2.2.2.2.1 "C" none ['1'] ['0']
      (by decide) (by decide) (by decide) (by decide) (by decide)⟩

end Cadastral

namespace Cadastral

/-- Lemma: `total_ownership` written via `truthyOwnership`. -/
theorem total_ownership_eq (sheet : PossessionSheet) :
    sheet.total_ownership
      = (if (sheet.possessors.filterMap truthyOwnership).isEmpty then none
         else some (sheet.possessors.filterMap truthyOwnership).sum) := rfl

/-- A possessor whose fraction is the literal `"0/5"` is dropped by the
truthiness filter. -/
theorem truthyOwnership_zero_frac (p : Possessor) (hp : p.ownership = some "0/5") :
    truthyOwnership p = none := by
  have hd : p.ownership_decimal = some 0 := by
    show (match p.ownership with
          | none => none
          | some s => if s = "" then none else pythonFraction s) = some 0
    rw [hp]
    show (if ("0/5" : String) = "" then none else pythonFraction "0/5") = some 0
    rw [if_neg (by decide : ¬ ("0/5" : String) = "")]
    rw [show ("0/5" : String) = String.mk (['0'] ++ '/' :: ['5']) from rfl]
    rw [pythonFraction_digits ['0'] ['5'] (by decide) (by decide) (by decide) (by decide)
      (by decide)]
    norm_num [show digitsVal ['0'] = 0 from rfl, show digitsVal ['5'] = 5 from rfl]
  unfold truthyOwnership
  rw [hd]
  simp

/-- C10: `PossessionSheet.total_ownership` sums only possessors whose
parsed ownership decimal is truthy — a possessor whose fraction parses to
exactly zero (`"0/5"`) is excluded from the sum wherever it sits in the
list, and a sheet all of whose possessors have absent, malformed or zero
fractions yields `none` rather than `0`. -/
theorem c10_total_ownership :
    (∀ (sh : PossessionSheet) (ps1 ps2 : List Possessor) (p : Possessor),
       p.ownership = some "0/5" →
       PossessionSheet.total_ownership { sh with possessors := ps1 ++ p :: ps2 }
         = PossessionSheet.total_ownership { sh with possessors := ps1 ++ ps2 })
    ∧ (∀ sh : PossessionSheet,
       (∀ p ∈ sh.possessors, p.ownership_decimal = none ∨ p.ownership_decimal = some 0) →
       sh.total_ownership = none) := by
  constructor
  · intro sh ps1 ps2 p hp
    rw [total_ownership_eq, total_ownership_eq]
    simp only [List.filterMap_append, List.filterMap_cons,
      truthyOwnership_zero_frac p hp]
  · intro sh h
    rw [total_ownership_eq]
    have hnil : sh.possessors.filterMap truthyOwnership = [] := by
      rw [List.filterMap_eq_nil_iff]
      intro p hp
      rcases h p hp with hd | hd
      · unfold truthyOwnership
        rw [hd]
      · unfold truthyOwnership
        rw [hd]
        simp
    rw [hnil]
    rfl

/-- Witness for C10 at concrete sheets: a `"0/5"` possessor amid a valid
one is dropped from the sum, and a sheet of absent/malformed/zero
fractions totals to `none`. -/
theorem c10_witness :
    PossessionSheet.total_ownership
        ⟨1, "769", 2387, none, none, none,
         [⟨"A", some "1/2", none⟩, ⟨"Z", some "0/5", none⟩]⟩
      = PossessionSheet.total_ownership
        ⟨1, "769", 2387, none, none, none, [⟨"A", some "1/2", none⟩]⟩
    ∧ PossessionSheet.total_ownership
        ⟨2, "770", 2387, none, none, none,
         [⟨"B", none, none⟩, ⟨"C", some "xyz", none⟩]⟩
      = none :=
  ⟨c10_total_ownership.1 ⟨1, "769", 2387, none, none, none, []⟩
      [⟨"A", some "1/2", none⟩] [] ⟨"Z", some "0/5", none⟩ rfl,
   c10_total_ownership.2 ⟨2, "770", 2387, none, none, none,
      [⟨"B", none, none⟩, ⟨"C", some "xyz", none⟩]⟩
      (by
        intro p hp
        simp only [List.mem_cons, List.not_mem_nil, or_false] at hp
        rcases hp with rfl | rfl
        · left; rfl
        · left; decide)⟩

end Cadastral

namespace Cadastral

/-- C4: on a file with one well-formed record (parcel `"103/2"`) and one
record missing its area field, lookup by `"103/2"` yields that parcel's
geometry; lookup by any query matching neither record's parcel-number
text yields `none` rather than raising; and `get_all_parcels` yields
exactly the one well-formed geometry, the record missing a scalar field
being silently skipped. -/
theorem c4_parser_find_and_skip :
    (∃ g : ParcelGeometry, getParcelByNumber c4Doc "103/2" = some g
       ∧ g.cestica_id = "335006816" ∧ g.broj_cestice = "103/2"
       ∧ g.maticni_broj_ko = "334979" ∧ g.srs_name = "EPSG:3765"
       ∧ g.coordinates.length = 2
       ∧ getAllParcels c4Doc = [g])
    ∧ (∀ q : String, q ≠ "103/2" → q ≠ "200" → getParcelByNumber c4Doc q = none)
    ∧ parseParcel c4MissingArea = none
    ∧ (getAllParcels c4Doc).length = 1 := by
  refine ⟨⟨(parseParcel c4WellFormed).get (by decide), by rfl, by decide, by decide,
      by decide, by decide, by decide, by rfl⟩,
    ?_, by decide, by decide⟩
  intro q h1 h2
  show (if ("103/2" : String) = q then parseParcel c4WellFormed
        else if ("200" : String) = q then parseParcel c4MissingArea
        else none) = none
  rw [if_neg (Ne.symm h1), if_neg (Ne.symm h2)]


end Cadastral

namespace Cadastral

/-- The token loop keeps exactly the tokens whose parse succeeds, in
input order (`filterMap` characterization). -/
theorem parseCoordsLoop_eq_filterMap (ts : List String) :
    parseCoordsLoop ts = ts.filterMap parseCoordToken := by
  induction ts with
  | nil => rfl
  | cons p rest ih =>
    show (match parseCoordToken p with
          | some c => c :: parseCoordsLoop rest
          | none => parseCoordsLoop rest) = _
    cases h : parseCoordToken p <;> simp [List.filterMap_cons, h, ih]

/-- C5: the parsed boundary contains exactly one point for each
space-separated token that parses as two floats around its first comma,
in input order; a token that fails to parse is skipped individually
without discarding the rest, so one corrupt token among valid ones
yields all valid points minus the corrupt one. -/
theorem c5_coordinates_skip_corrupt :
    (∀ s : String, parseCoordinates s = (coordTokens s).filterMap parseCoordToken)
    ∧ (∀ (ts1 ts2 : List String) (t : String), parseCoordToken t = none →
        parseCoordsLoop (ts1 ++ t :: ts2) = parseCoordsLoop (ts1 ++ ts2))
    ∧ parseCoordToken "abc,def" = none
    ∧ parseCoordToken "nocomma" = none
    ∧ parseCoordinates "10,20 abc,def 30,40"
        = [⟨(10 : ℚ), (20 : ℚ)⟩, ⟨(30 : ℚ), (40 : ℚ)⟩]
    ∧ (parseCoordinates "634024.09,4875754.42 abc,def 634030.5,4875760.25").length = 2 := by
  refine ⟨fun s => parseCoordsLoop_eq_filterMap (coordTokens s), ?_, by decide, by decide,
    by rfl, by decide⟩
  intro ts1 ts2 t ht
  rw [parseCoordsLoop_eq_filterMap, parseCoordsLoop_eq_filterMap]
  simp [List.filterMap_append, List.filterMap_cons, ht]

/-- Witness for C5 at a concrete token list with the corrupt token in the
middle. -/
theorem c5_witness :
    parseCoordsLoop (["10,20"] ++ "abc,def" :: ["30,40"])
      = parseCoordsLoop (["10,20"] ++ ["30,40"]) :=
  c5_coordinates_skip_corrupt.2.1 ["10,20"] ["30,40"] "abc,def" (by decide)

/-- Lemma: `get_all_parcels` is the `filterMap` of per-feature parsing. -/
theorem getAllParcels_eq_filterMap (doc : GMLDocument) :
    getAllParcels doc = doc.filterMap (fun f => f.bind parseParcel) := by
  induction doc with
  | nil => rfl
  | cons f rest ih =>
    cases f with
    | none => simpa [getAllParcels, List.filterMap_cons] using ih
    | some c =>
      show (match parseParcel c with
            | some p => p :: getAllParcels rest
            | none => getAllParcels rest) = _
      cases h : parseParcel c <;> simp [List.filterMap_cons, h, ih]

/-- Dropping at least one element strictly shrinks a `filterMap`. -/
theorem length_filterMap_lt_of_mem_none {α β : Type} (f : α → Option β) :
    ∀ (l : List α) (x : α), x ∈ l → f x = none →
      (l.filterMap f).length < l.length := by
  intro l
  induction l with
  | nil => intro x hx; cases hx
  | cons a t ih =>
    intro x hx hfx
    rcases List.mem_cons.mp hx with rfl | hxt
    · rw [List.filterMap_cons, hfx]
      exact Nat.lt_succ_of_le (List.length_filterMap_le f t)
    · rw [List.filterMap_cons]
      cases hfa : f a with
      | none => exact Nat.lt_succ_of_lt (ih x hxt hfx)
      | some b => simpa using Nat.succ_lt_succ (ih x hxt hfx)

/-- C9: `count_parcels` counts every `featureMember` element whether or
not its record parses, so it bounds `get_all_parcels` from above, with
strict inequality whenever at least one feature is skipped as
unparsable. -/
theorem c9_count_dominates_parsed :
    (∀ doc : GMLDocument, (getAllParcels doc).length ≤ countParcels doc)
    ∧ (∀ (doc : GMLDocument) (f : Option Cestice), f ∈ doc →
        Option.bind f parseParcel = none →
        (getAllParcels doc).length < countParcels doc) := by
  constructor
  · intro doc
    rw [getAllParcels_eq_filterMap]
    exact List.length_filterMap_le _ doc
  · intro doc f hf hskip
    rw [getAllParcels_eq_filterMap]
    exact length_filterMap_lt_of_mem_none _ doc f hf hskip

/-- Witness for C9 at a document whose single feature lacks a `CESTICE`
child: it is counted but yields no geometry. -/
theorem c9_witness :
    (getAllParcels [(none : Option Cestice)]).length < countParcels [(none : Option Cestice)] :=
  c9_count_dominates_parsed.2 [none] none (List.mem_singleton.mpr rfl) rfl

end Cadastral

namespace Cadastral

/-- C7 counterexample: the claim states that a purely numeric input is
returned unchanged by both variants and that on several matches the
batch variant falls back to the first result.  The batch variant returns
the numeric input `"123"` unchanged only if it were six digits long — it
instead searches it as a name and surfaces not-found — and with two
results whose second matches the query by name it returns the second,
not the first. -/
theorem c7_counterexample_numeric_not_returned :
    pyIsDigit "123" = true
    ∧ resolveMunicipalityBatch c7EmptySearch "123" = Except.error ResolveErr.notFound
    ∧ resolveMunicipalityBatch c7EmptySearch "123" ≠ Except.ok "123"
    ∧ pyIsDigit "SAVAR" = false
    ∧ c7TwoResults "SAVAR" = [⟨"SAVARSKO", "111111"⟩, ⟨"SAVAR", "222222"⟩]
    ∧ resolveMunicipalityBatch c7TwoResults "SAVAR" = Except.ok "222222"
    ∧ resolveMunicipalityBatch c7TwoResults "SAVAR" ≠ Except.ok "111111" := by
  refine ⟨by decide, by decide, by decide, by decide, rfl, by decide, by decide⟩

/-- C7 (amended): a purely numeric input is returned unchanged by the
strict CLI variant, and by the batch variant only when it is exactly six
digits (otherwise the batch variant searches it as a name); zero search
matches is a not-found error in both variants; on more than one match
the CLI variant surfaces a disambiguation error, while the batch variant
returns the first result whose name equals the input up to case, falling
back to the first result when none does. -/
theorem c7_resolve_municipality_amended :
    (∀ (f : String → List MuniResult) (m : String), pyIsDigit m = true →
       resolveMunicipalityCLI f m = Except.ok m)
    ∧ (∀ (f : String → List MuniResult) (m : String),
       pyIsDigit m = true → m.length = 6 → resolveMunicipalityBatch f m = Except.ok m)
    ∧ (∀ (f : String → List MuniResult) (m : String),
       (pyIsDigit m = true → m.length ≠ 6) → f m = [] →
       resolveMunicipalityBatch f m = Except.error ResolveErr.notFound)
    ∧ (∀ (f : String → List MuniResult) (m : String), pyIsDigit m = false → f m = [] →
       resolveMunicipalityCLI f m = Except.error ResolveErr.notFound)
    ∧ (∀ (f : String → List MuniResult) (m : String) (r : MuniResult) (rs : List MuniResult),
       pyIsDigit m = false → f m = r :: rs → 0 < rs.length →
       resolveMunicipalityCLI f m = Except.error ResolveErr.ambiguous)
    ∧ (∀ (f : String → List MuniResult) (m : String) (r : MuniResult) (rs : List MuniResult),
       pyIsDigit m = false → f m = r :: rs →
       resolveMunicipalityBatch f m
         = Except.ok ((((r :: rs).find?
             fun x => pyUpper x.municipality_name = pyUpper m).getD r).municipality_reg_num)) := by
  refine ⟨?_, ?_, ?_, ?_, ?_, ?_⟩
  · intro f m h
    simp [resolveMunicipalityCLI, h]
  · intro f m h hlen
    simp [resolveMunicipalityBatch, h, hlen]
  · intro f m hcond hempty
    have hc : (pyIsDigit m && decide (m.length = 6)) = false := by
      cases hb : pyIsDigit m with
      | false => simp
      | true => simp [hcond hb]
    simp [resolveMunicipalityBatch, hc, hempty]
  · intro f m h hempty
    simp [resolveMunicipalityCLI, h, hempty]
  · intro f m r rs h hfm hlen
    simp [resolveMunicipalityCLI, h, hfm, Nat.pos_iff_ne_zero.mp hlen]
  · intro f m r rs h hfm
    have hc : (pyIsDigit m && decide (m.length = 6)) = false := by simp [h]
    simp only [resolveMunicipalityBatch, hc, Bool.false_eq_true, if_false, hfm]
    cases hfind : (r :: rs).find? (fun x => pyUpper x.municipality_name = pyUpper m) with
    | none => simp [hfind]
    | some x => simp [hfind]

/-- Witness for C7's amended statement at concrete inputs. -/
theorem c7_witness :
    resolveMunicipalityCLI c7EmptySearch "123" = Except.ok "123"
    ∧ resolveMunicipalityBatch c7EmptySearch "123456" = Except.ok "123456"
    ∧ resolveMunicipalityBatch c7EmptySearch "123" = Except.error ResolveErr.notFound
    ∧ resolveMunicipalityCLI c7EmptySearch "Savar" = Except.error ResolveErr.notFound
    ∧ resolveMunicipalityCLI c7TwoResults "SAVAR" = Except.error ResolveErr.ambiguous
    ∧ resolveMunicipalityBatch c7TwoResults "SAVAR"
        = Except.ok (((([⟨"SAVARSKO", "111111"⟩, ⟨"SAVAR", "222222"⟩] : List MuniResult).find?
            fun x => pyUpper x.municipality_name = pyUpper "SAVAR").getD
            ⟨"SAVARSKO", "111111"⟩).municipality_reg_num) :=
  ⟨c7_resolve_municipality_amended.1 c7EmptySearch "123" (by decide),
   c7_resolve_municipality_amended.2.1 c7EmptySearch "123456" (by decide) (by decide),
   c7_resolve_municipality_amended.2.2.1 c7EmptySearch "123" (fun _ => by decide) rfl,
   c7_resolve_municipality_amended.2.2.2.1 c7EmptySearch "Savar" (by decide) rfl,
   c7_resolve_municipality_amended.2.2.2.2.1 c7TwoResults "SAVAR"
     ⟨"SAVARSKO", "111111"⟩ [⟨"SAVAR", "222222"⟩] (by decide) rfl (by decide),
   c7_resolve_municipality_amended.2.2.2.2.2 c7TwoResults "SAVAR"
     ⟨"SAVARSKO", "111111"⟩ [⟨"SAVAR", "222222"⟩] (by decide) rfl⟩

end Cadastral

namespace Cadastral

/-- With `continue_on_error` set, the item loop never errors and its
tallies account for every processed item. -/
theorem processBatchGo_ok (items : List ItemOutcome) :
    ∀ (s f : Nat) (acc : List RStatus), ∃ s2 f2 acc2,
      processBatchGo true items s f acc = Except.ok (s2, f2, acc2)
      ∧ s2 + f2 = s + f + items.length := by
  induction items with
  | nil => intro s f acc; exact ⟨s, f, acc.reverse, rfl, by simp⟩
  | cons it rest ih =>
    intro s f acc
    cases it with
    | found =>
      obtain ⟨s2, f2, acc2, h1, h2⟩ := ih (s + 1) f (.success :: acc)
      exact ⟨s2, f2, acc2, h1, by simpa [Nat.add_assoc, Nat.add_comm, Nat.add_left_comm] using h2⟩
    | notFound =>
      obtain ⟨s2, f2, acc2, h1, h2⟩ := ih s (f + 1) (.failure "parcel_not_found" :: acc)
      exact ⟨s2, f2, acc2, h1, by simpa [Nat.add_assoc, Nat.add_comm, Nat.add_left_comm] using h2⟩
    | raises e =>
      obtain ⟨s2, f2, acc2, h1, h2⟩ := ih s (f + 1) (.failure (errTypeOf e) :: acc)
      exact ⟨s2, f2, acc2, h1, by simpa [Nat.add_assoc, Nat.add_comm, Nat.add_left_comm] using h2⟩

/-- Without `continue_on_error`, the first raised exception propagates
out of the item loop unchanged. -/
theorem processBatchGo_error (e : PyExc) (post : List ItemOutcome) :
    ∀ (pre : List ItemOutcome), (∀ x ∈ pre, ∀ e2, x ≠ ItemOutcome.raises e2) →
    ∀ (s f : Nat) (acc : List RStatus),
      processBatchGo false (pre ++ ItemOutcome.raises e :: post) s f acc = Except.error e := by
  intro pre
  induction pre with
  | nil => intro _ s f acc; rfl
  | cons x pre ih =>
    intro h s f acc
    have hx := h x (List.mem_cons_self _ _)
    have hrest : ∀ y ∈ pre, ∀ e2, y ≠ ItemOutcome.raises e2 :=
      fun y hy => h y (List.mem_cons_of_mem _ hy)
    cases x with
    | found => exact ih hrest (s + 1) f (.success :: acc)
    | notFound => exact ih hrest s (f + 1) (.failure "parcel_not_found" :: acc)
    | raises e2 => exact absurd rfl (hx e2)

/-- C8: with `continue_on_error` unset, the first exception raised while
processing an item propagates out of `process_batch` as the original
error object unchanged (not wrapped); with it set, processing continues
past every per-item error and the summary tally satisfies
`total = successful + failed = number of inputs`. -/
theorem c8_process_batch :
    (∀ (pre post : List ItemOutcome) (e : PyExc),
       (∀ x ∈ pre, ∀ e2, x ≠ ItemOutcome.raises e2) →
       processBatch false (pre ++ ItemOutcome.raises e :: post) = Except.error e)
    ∧ (∀ items : List ItemOutcome, ∃ summ : BatchSummary,
       processBatch true items = Except.ok summ
       ∧ summ.total = items.length
       ∧ summ.successful + summ.failed = summ.total) := by
  constructor
  · intro pre post e h
    unfold processBatch
    rw [processBatchGo_error e post pre h 0 0 []]
  · intro items
    obtain ⟨s2, f2, acc2, h1, h2⟩ := processBatchGo_ok items 0 0 []
    refine ⟨⟨items.length, s2, f2, acc2⟩, ?_, rfl, by simpa using h2⟩
    unfold processBatch
    rw [h1]

/-- Witness for C8: a batch whose third item raises an
`invalid_response` error propagates exactly that error object in
stop-on-first-error mode, and a batch with one success, one not-found
and one raising item tallies `3 = 1 + 2` in continue mode. -/
theorem c8_witness :
    processBatch false ([ItemOutcome.found, ItemOutcome.notFound]
        ++ ItemOutcome.raises (PyExc.api ⟨"invalid_response", "bad payload"⟩)
          :: [ItemOutcome.found])
      = Except.error (PyExc.api ⟨"invalid_response", "bad payload"⟩)
    ∧ ∃ summ : BatchSummary,
        processBatch true
            [ItemOutcome.found, ItemOutcome.notFound,
             ItemOutcome.raises (PyExc.api ⟨"parcel_not_found", "missing"⟩)]
          = Except.ok summ
        ∧ summ.total = 3 ∧ summ.successful + summ.failed = summ.total :=
  ⟨c8_process_batch.1 [ItemOutcome.found, ItemOutcome.notFound] [ItemOutcome.found]
      (PyExc.api ⟨"invalid_response", "bad payload"⟩)
      (by intro x hx e2 hh; subst hh; simp at hx),
   c8_process_batch.2 [ItemOutcome.found, ItemOutcome.notFound,
      ItemOutcome.raises (PyExc.api ⟨"parcel_not_found", "missing"⟩)]⟩

end Cadastral

namespace Cadastral

/-- Witness for C2 at the concrete condominium-typed unit. -/
theorem c2_witness :
    c2CondoUnit.is_condominium
      = strContainsSub c2CondoUnit.lr_unit_type_name condominiumMarker :=
  c2_is_condominium.1 c2CondoUnit

/-- Witness for C4 at the concrete query `"other"`, which matches no
record. -/
theorem c4_witness : getParcelByNumber c4Doc "other" = none :=
  c4_parser_find_and_skip.2.1 "other" (by decide) (by decide)

/-- Witness for C6 at zero starting counters. -/
theorem c6_witness :
    getParcelData true ⟨false, false, 0, 0⟩ = some ⟨true, true, 1, 1⟩
    ∧ getParcelData true ⟨true, true, 1, 1⟩ = some ⟨true, true, 1, 1⟩
    ∧ extractGml ⟨true, true, 0, 0⟩ = some ⟨true, true, 0, 0⟩ :=
  c6_cache_idempotent 0 0

end Cadastral
